import Mathlib

set_option maxRecDepth 100000

/-!
Shallow embedding of `src/script.py` (a ball bouncing inside a tesseract,
rendered by 4D→3D perspective projection).  Python float arithmetic is
modelled by exact rational arithmetic (`ℚ`); 4D points are `Fin 4 → ℚ`
and 3D points are `Fin 3 → ℚ`.
-/

/-- `bounds = (-1, 1)` — the tesseract extends from -1 to 1 on every axis
(script.py line 10). -/
def bounds : ℚ × ℚ := (-1, 1)

/-- `ball_radius = 0.1` (script.py line 13). -/
def ball_radius : ℚ := 1/10

/-- `ball_pos = np.array([0.0, 0.0, 0.0, 0.0])` — the initial 4D position
(script.py line 14).  The initial velocity is drawn at random at module load,
so it is left as a parameter of the theorems below. -/
def ball_pos₀ : Fin 4 → ℚ := ![0, 0, 0, 0]

/-- `dt = 0.02` — simulation time step (script.py line 19). -/
def dt : ℚ := 1/50

/-- `projection_distance = 3.0` — the eye distance of the perspective
projection (script.py line 23). -/
def projection_distance : ℚ := 3

/-- The local `factor = d / (d - w)` computed inside `project_point`
(script.py line 36). -/
def factor (d w : ℚ) : ℚ := d / (d - w)

/-- `project_point(point4d, d)` — perspective projection of a 4D point into
3D: drop `w` and scale the remaining coordinates by `d / (d - w)`
(script.py lines 27–37). -/
def project_point (point4d : Fin 4 → ℚ) (d : ℚ) : Fin 3 → ℚ :=
  ![point4d 0 * factor d (point4d 3),
    point4d 1 * factor d (point4d 3),
    point4d 2 * factor d (point4d 3)]

/-- `vertices_4d = np.array(list(itertools.product([-1, 1], repeat=4)))` —
the 16 vertices of the tesseract, in the same (lexicographic, last axis
fastest) order as `itertools.product` (script.py line 42). -/
def vertices_4d : List (Fin 4 → ℚ) :=
  ([-1, 1] : List ℚ).flatMap fun a =>
    ([-1, 1] : List ℚ).flatMap fun b =>
      ([-1, 1] : List ℚ).flatMap fun c =>
        ([-1, 1] : List ℚ).map fun d => ![a, b, c, d]

/-- `n_vertices = vertices_4d.shape[0]` (script.py line 46). -/
def n_vertices : ℕ := vertices_4d.length

/-- The edge list of the tesseract (script.py lines 45–51): for every index
pair `i < j`, the pair of vertices is an edge when the number of axes on
which the two vertices differ by absolute value 2 is exactly one
(`np.sum(np.abs(v_i - v_j) == 2) == 1`). -/
def edges : List ((Fin 4 → ℚ) × (Fin 4 → ℚ)) :=
  (List.range n_vertices).flatMap fun i =>
    (List.range n_vertices).filterMap fun j =>
      if i < j then
        let vi := vertices_4d.getD i default
        let vj := vertices_4d.getD j default
        if (Finset.univ.filter fun k : Fin 4 => |vi k - vj k| = 2).card = 1 then
          some (vi, vj)
        else none
      else none

/-- `projected_edges` — both endpoints of every edge projected to 3D
(script.py lines 54–58). -/
def projected_edges : List ((Fin 3 → ℚ) × (Fin 3 → ℚ)) :=
  edges.map fun edge =>
    (project_point edge.1 projection_distance,
     project_point edge.2 projection_distance)

/-- The configuration knobs of the simulation.  script.py hard-codes them as
module globals (lines 10–23); they are gathered in a structure so that the
step function can also be stated for other configurations. -/
structure Config where
  low : ℚ
  high : ℚ
  radius : ℚ
  dt : ℚ
  projection_distance : ℚ

/-- The configuration the script actually runs with: `bounds = (-1, 1)`,
`ball_radius = 0.1`, `dt = 0.02`, `projection_distance = 3.0`. -/
def defaultCfg : Config :=
  ⟨bounds.1, bounds.2, ball_radius, dt, projection_distance⟩

/-- The mutable state of the ball: `ball_pos` and `ball_vel`
(script.py lines 14–16), mutated in place by `update_ball`. -/
structure BallState where
  pos : Fin 4 → ℚ
  vel : Fin 4 → ℚ

/-- The body of the per-axis collision loop of `update_ball`
(script.py lines 70–76), for one axis: `p` is the freshly integrated
position coordinate and `v` the velocity coordinate.
`if p + radius > high`: clamp to `high - radius` and negate `v`;
`elif p - radius < low`: clamp to `low + radius` and negate `v`. -/
def reflect_axis (cfg : Config) (p v : ℚ) : ℚ × ℚ :=
  if p + cfg.radius > cfg.high then (cfg.high - cfg.radius, -v)
  else if p - cfg.radius < cfg.low then (cfg.low + cfg.radius, -v)
  else (p, v)

/-- `update_ball()` (script.py lines 62–76): first
`ball_pos = ball_pos + ball_vel * dt` on every axis, then the per-axis
collision check.  The Python loop reads and writes only axis `i` in its
`i`-th iteration, so it is the axis-wise map `reflect_axis`. -/
def update_ball (cfg : Config) (s : BallState) : BallState :=
  let p : Fin 4 → ℚ := fun i => s.pos i + s.vel i * cfg.dt
  ⟨fun i => (reflect_axis cfg (p i) (s.vel i)).1,
   fun i => (reflect_axis cfg (p i) (s.vel i)).2⟩

/-- The error taxonomy entry for invalid startup configuration (spec §7). -/
inductive ConfigurationError where
  | invalid : ConfigurationError

/-- Modelled from the spec: script.py only hard-codes the configuration
constants (lines 10–23) and contains no startup validation code; the
spec's §7 startup check — fail with `ConfigurationError` when `dt ≤ 0`,
`radius ≤ 0`, `radius ≥ (high − low)/2`, or
`projectionDistance ≤ high + radius` — is modelled here from its words. -/
def validate_config (cfg : Config) : Except ConfigurationError Unit :=
  if cfg.dt ≤ 0 then .error .invalid
  else if cfg.radius ≤ 0 then .error .invalid
  else if (cfg.high - cfg.low)/2 ≤ cfg.radius then .error .invalid
  else if cfg.projection_distance ≤ cfg.high + cfg.radius then .error .invalid
  else .ok ()

/-! ### Helper lemmas -/

lemma update_ball_pos (cfg : Config) (s : BallState) (i : Fin 4) :
    (update_ball cfg s).pos i =
      (reflect_axis cfg (s.pos i + s.vel i * cfg.dt) (s.vel i)).1 := rfl

lemma update_ball_vel (cfg : Config) (s : BallState) (i : Fin 4) :
    (update_ball cfg s).vel i =
      (reflect_axis cfg (s.pos i + s.vel i * cfg.dt) (s.vel i)).2 := rfl

lemma defaultCfg_low : defaultCfg.low = -1 := rfl

lemma defaultCfg_high : defaultCfg.high = 1 := rfl

lemma defaultCfg_radius : defaultCfg.radius = 1/10 := rfl

/-- Whatever the integrated coordinate and velocity are, the position
coordinate that `reflect_axis` returns lies in
`[low + radius, high - radius]`, provided that interval is nonempty. -/
lemma reflect_axis_mem (cfg : Config)
    (h : cfg.low + cfg.radius ≤ cfg.high - cfg.radius) (p v : ℚ) :
    cfg.low + cfg.radius ≤ (reflect_axis cfg p v).1 ∧
      (reflect_axis cfg p v).1 ≤ cfg.high - cfg.radius := by
  unfold reflect_axis
  split_ifs with h₁ h₂
  · exact ⟨h, le_refl _⟩
  · exact ⟨le_refl _, h⟩
  · constructor <;> [linarith [not_lt.mp h₂]; linarith [not_lt.mp h₁]]

/-- One call of `update_ball` with the script's configuration puts every
position coordinate inside `[-1 + 1/10, 1 - 1/10]`, whatever the previous
state was. -/
lemma step_contained (s : BallState) (i : Fin 4) :
    defaultCfg.low + defaultCfg.radius ≤ (update_ball defaultCfg s).pos i ∧
      (update_ball defaultCfg s).pos i ≤ defaultCfg.high - defaultCfg.radius := by
  rw [update_ball_pos]
  exact reflect_axis_mem defaultCfg (by norm_num [defaultCfg_low, defaultCfg_high, defaultCfg_radius]) _ _

/-- After at least one call of `update_ball` with the script's configuration,
every position coordinate lies inside `[low + radius, high - radius]`. -/
lemma iterate_contained (s : BallState) (n : ℕ) (hn : 1 ≤ n) (i : Fin 4) :
    defaultCfg.low + defaultCfg.radius ≤ ((update_ball defaultCfg)^[n] s).pos i ∧
      ((update_ball defaultCfg)^[n] s).pos i ≤ defaultCfg.high - defaultCfg.radius := by
  obtain ⟨m, rfl⟩ := Nat.exists_eq_add_of_le hn
  rw [Nat.add_comm, Function.iterate_succ_apply']
  exact step_contained _ i

/-- A single step preserves the absolute value of every velocity
coordinate: the velocity coordinate is either kept or exactly negated. -/
lemma abs_vel_step (cfg : Config) (s : BallState) (i : Fin 4) :
    |(update_ball cfg s).vel i| = |s.vel i| := by
  rw [update_ball_vel]
  unfold reflect_axis
  split_ifs <;> simp [abs_neg]

/-- Componentwise form of `project_point` on a literal 4D vector. -/
lemma project_point_apply (x y z w d : ℚ) (i : Fin 3) :
    project_point ![x, y, z, w] d i = ![x, y, z] i * factor d w := by
  fin_cases i <;> rfl

/-! ### Claims -/

/-- C1: Boundary containment invariant.  With the default configuration
(`bounds = (-1, 1)`, `radius = 0.1`), for every initial velocity and every
tick count `n ≥ 1`, after the `n`-th call of `update_ball` starting from
the initial position `(0,0,0,0)`, every coordinate of the ball's position
satisfies `bounds.low + radius ≤ position[i] ≤ bounds.high - radius`
(exactly, hence in particular up to any floating-point tolerance). -/
theorem boundary_containment (vel₀ : Fin 4 → ℚ) (n : ℕ) (hn : 1 ≤ n) (i : Fin 4) :
    defaultCfg.low + defaultCfg.radius ≤
        ((update_ball defaultCfg)^[n] ⟨ball_pos₀, vel₀⟩).pos i ∧
      ((update_ball defaultCfg)^[n] ⟨ball_pos₀, vel₀⟩).pos i ≤
        defaultCfg.high - defaultCfg.radius :=
  iterate_contained ⟨ball_pos₀, vel₀⟩ n hn i

/-- Witness for C1: one tick with initial velocity `(0,0,0,5)`, axis 3. -/
theorem boundary_containment_witness :
    (1 : ℕ) ≤ 1 ∧
      (defaultCfg.low + defaultCfg.radius ≤
          ((update_ball defaultCfg)^[1] ⟨ball_pos₀, ![0, 0, 0, 5]⟩).pos 3 ∧
        ((update_ball defaultCfg)^[1] ⟨ball_pos₀, ![0, 0, 0, 5]⟩).pos 3 ≤
          defaultCfg.high - defaultCfg.radius) :=
  ⟨le_refl 1, boundary_containment ![0, 0, 0, 5] 1 (le_refl 1) 3⟩

/-- C2: Reflection correctness.  For every pre-step state and every axis
`i`, with the script's configuration: if
`position[i] + velocity[i]*dt + radius > bounds.high` before the step, then
after one `update_ball` the velocity coordinate is exactly negated and the
position coordinate equals `bounds.high - radius`; symmetrically, if
`position[i] + velocity[i]*dt - radius < bounds.low`, the velocity
coordinate is negated and the position coordinate equals
`bounds.low + radius`. -/
theorem reflection_correct (s : BallState) (i : Fin 4) :
    (defaultCfg.high < s.pos i + s.vel i * defaultCfg.dt + defaultCfg.radius →
      (update_ball defaultCfg s).vel i = -(s.vel i) ∧
        (update_ball defaultCfg s).pos i = defaultCfg.high - defaultCfg.radius) ∧
    (s.pos i + s.vel i * defaultCfg.dt - defaultCfg.radius < defaultCfg.low →
      (update_ball defaultCfg s).vel i = -(s.vel i) ∧
        (update_ball defaultCfg s).pos i = defaultCfg.low + defaultCfg.radius) := by
  rw [update_ball_pos, update_ball_vel]
  unfold reflect_axis
  constructor
  · intro hhigh
    rw [if_pos hhigh]
    exact ⟨rfl, rfl⟩
  · intro hlow
    have hnot : ¬ (defaultCfg.high < s.pos i + s.vel i * defaultCfg.dt + defaultCfg.radius) := by
      rw [defaultCfg_low, defaultCfg_radius] at hlow
      rw [defaultCfg_high, defaultCfg_radius]
      intro hhigh
      linarith
    rw [if_neg hnot, if_pos hlow]
    exact ⟨rfl, rfl⟩

/-- Witness for C2: a state moving fast enough along axis 3 to cross the
upper wall in one tick; the velocity is negated and the position clamped. -/
theorem reflection_correct_witness :
    (defaultCfg.high <
        (⟨![0, 0, 0, 0], ![0, 0, 0, 50]⟩ : BallState).pos 3 +
          (⟨![0, 0, 0, 0], ![0, 0, 0, 50]⟩ : BallState).vel 3 * defaultCfg.dt +
          defaultCfg.radius) ∧
      ((update_ball defaultCfg ⟨![0, 0, 0, 0], ![0, 0, 0, 50]⟩).vel 3 =
          -((⟨![0, 0, 0, 0], ![0, 0, 0, 50]⟩ : BallState).vel 3) ∧
        (update_ball defaultCfg ⟨![0, 0, 0, 0], ![0, 0, 0, 50]⟩).pos 3 =
          defaultCfg.high - defaultCfg.radius) :=
  ⟨by with_unfolding_all decide,
    (reflection_correct ⟨![0, 0, 0, 0], ![0, 0, 0, 50]⟩ 3).1 (by with_unfolding_all decide)⟩

/-- C3: Hypercube geometry counts.  The generated vertex list has exactly
16 pairwise-distinct vertices and contains every ±1 combination; the edge
list has exactly 32 entries; every edge joins two vertices differing (by
absolute value 2) in exactly one coordinate; no unordered vertex pair
occurs twice; and every vertex occurs in exactly 4 edges. -/
theorem hypercube_counts :
    vertices_4d.length = 16 ∧
    (∀ f : Fin 4 → Bool, (fun i => if f i then (1 : ℚ) else -1) ∈ vertices_4d) ∧
    vertices_4d.Nodup ∧
    edges.length = 32 ∧
    (∀ e ∈ edges, (Finset.univ.filter fun k : Fin 4 => |e.1 k - e.2 k| = 2).card = 1) ∧
    edges.Pairwise (fun e f => ¬(e.1 = f.1 ∧ e.2 = f.2) ∧ ¬(e.1 = f.2 ∧ e.2 = f.1)) ∧
    (∀ v ∈ vertices_4d, (edges.countP fun e => decide (e.1 = v ∨ e.2 = v)) = 4) := by
  refine ⟨?_, ?_, ?_, ?_, ?_, ?_, ?_⟩ <;> with_unfolding_all decide

/-- C4: Startup configuration validation.  `validate_config` fails with a
`ConfigurationError` exactly when `dt ≤ 0`, `radius ≤ 0`,
`radius ≥ (high - low)/2`, or `projectionDistance ≤ high + radius`; when it
passes, `projectionDistance > high + radius` is enforced; and the script's
own configuration passes. -/
theorem config_validation :
    (∀ cfg : Config,
      ((∃ e, validate_config cfg = .error e) ↔
        (cfg.dt ≤ 0 ∨ cfg.radius ≤ 0 ∨ (cfg.high - cfg.low)/2 ≤ cfg.radius ∨
          cfg.projection_distance ≤ cfg.high + cfg.radius)) ∧
      (validate_config cfg = .ok () →
        cfg.high + cfg.radius < cfg.projection_distance)) ∧
    validate_config defaultCfg = .ok () := by
  constructor
  · intro cfg
    unfold validate_config
    split_ifs with h₁ h₂ h₃ h₄ <;> constructor
    · exact ⟨fun _ => Or.inl h₁, fun _ => ⟨.invalid, rfl⟩⟩
    · intro h
      exact h.elim
    · exact ⟨fun _ => Or.inr (Or.inl h₂), fun _ => ⟨.invalid, rfl⟩⟩
    · intro h
      exact h.elim
    · exact ⟨fun _ => Or.inr (Or.inr (Or.inl h₃)), fun _ => ⟨.invalid, rfl⟩⟩
    · intro h
      exact h.elim
    · exact ⟨fun _ => Or.inr (Or.inr (Or.inr h₄)), fun _ => ⟨.invalid, rfl⟩⟩
    · intro h
      exact h.elim
    · constructor
      · rintro ⟨e, he⟩
        exact he.elim
      · rintro (h | h | h | h)
        · exact absurd h h₁
        · exact absurd h h₂
        · exact absurd h h₃
        · exact absurd h h₄
    · intro _
      exact not_le.mp h₄
  · with_unfolding_all rfl

/-- C5: Concrete scenario.  With the script's configuration, initial
position `(0,0,0,0)` and initial velocity `(0,0,0,5)`, at some tick (tick
10) the position on axis 3 equals exactly `bounds.high - radius = 0.9`
with velocity `-5` at that tick, and at every subsequent tick the position
on axis 3 never exceeds `0.9`. -/
theorem scenario_w_axis :
    ∃ t : ℕ,
      ((update_ball defaultCfg)^[t] ⟨ball_pos₀, ![0, 0, 0, 5]⟩).pos 3 =
          defaultCfg.high - defaultCfg.radius ∧
      ((update_ball defaultCfg)^[t] ⟨ball_pos₀, ![0, 0, 0, 5]⟩).vel 3 = -5 ∧
      ∀ n : ℕ, t ≤ n →
        ((update_ball defaultCfg)^[n] ⟨ball_pos₀, ![0, 0, 0, 5]⟩).pos 3 ≤
          defaultCfg.high - defaultCfg.radius := by
  refine ⟨10, ?_, ?_, ?_⟩
  · with_unfolding_all decide
  · with_unfolding_all decide
  · intro n hn
    exact (iterate_contained ⟨ball_pos₀, ![0, 0, 0, 5]⟩ n
      (le_trans (by norm_num) hn) 3).2

/-- C6: Projection identity on `w = 0`.  For all rationals `x, y, z` and
every eye distance `d > 0`, projecting `(x, y, z, 0)` returns exactly
`(x, y, z)`, because the scale factor `d / (d - 0)` equals 1. -/
theorem projection_identity_w0 (x y z d : ℚ) (hd : 0 < d) :
    project_point ![x, y, z, 0] d = ![x, y, z] := by
  have hf : factor d 0 = 1 := by
    unfold factor
    rw [sub_zero, div_self hd.ne']
  funext i
  rw [project_point_apply, hf, mul_one]

/-- Witness for C6: projecting `(1, 2, 3, 0)` at eye distance 3. -/
theorem projection_identity_w0_witness :
    (0 : ℚ) < 3 ∧ project_point ![1, 2, 3, 0] 3 = ![1, 2, 3] :=
  ⟨by norm_num, projection_identity_w0 1 2 3 3 (by norm_num)⟩

/-- C7: Projection monotonicity and positivity.  For an eye distance
`d > 0` and `w₁ < w₂ < d`, the scale factor `d / (d - w)` is positive and
strictly increasing in `w`, hence the magnitude of every projected
coordinate of `(x, y, z, w)` is monotone in `w`: points with larger `w`
appear magnified. -/
theorem projection_monotone (d w₁ w₂ : ℚ) (hd : 0 < d) (h₁₂ : w₁ < w₂) (h₂ : w₂ < d) :
    0 < factor d w₁ ∧ factor d w₁ < factor d w₂ ∧
      ∀ x y z : ℚ, ∀ i : Fin 3,
        |project_point ![x, y, z, w₁] d i| ≤ |project_point ![x, y, z, w₂] d i| := by
  have hden₂ : 0 < d - w₂ := by linarith
  have hden₁ : 0 < d - w₁ := by linarith
  have hpos₁ : 0 < factor d w₁ := div_pos hd hden₁
  have hmono : factor d w₁ < factor d w₂ :=
    div_lt_div_of_pos_left hd hden₂ (by linarith)
  have hpos₂ : 0 < factor d w₂ := lt_trans hpos₁ hmono
  refine ⟨hpos₁, hmono, ?_⟩
  have hf : |factor d w₁| ≤ |factor d w₂| := by
    rw [abs_of_pos hpos₁, abs_of_pos hpos₂]
    exact le_of_lt hmono
  intro x y z i
  rw [project_point_apply, project_point_apply, abs_mul, abs_mul]
  exact mul_le_mul_of_nonneg_left hf (abs_nonneg _)

/-- Witness for C7: eye distance 3, `w₁ = 0 < w₂ = 1 < 3`, evaluated on the
point `(1, 2, 3, w)` at the first projected coordinate. -/
theorem projection_monotone_witness :
    0 < factor 3 0 ∧ factor 3 0 < factor 3 1 ∧
      |project_point ![1, 2, 3, 0] 3 0| ≤ |project_point ![1, 2, 3, 1] 3 0| :=
  ⟨(projection_monotone 3 0 1 (by norm_num) (by norm_num) (by norm_num)).1,
    (projection_monotone 3 0 1 (by norm_num) (by norm_num) (by norm_num)).2.1,
    (projection_monotone 3 0 1 (by norm_num) (by norm_num) (by norm_num)).2.2 1 2 3 0⟩

/-- C8: Determinism.  Two runs of `update_ball` with the same configuration
and equal initial positions and velocities produce, at every tick count,
equal ball positions and equal projected ball positions. -/
theorem determinism_runs (cfg : Config) (s₁ s₂ : BallState)
    (hpos : s₁.pos = s₂.pos) (hvel : s₁.vel = s₂.vel) (n : ℕ) :
    ((update_ball cfg)^[n] s₁).pos = ((update_ball cfg)^[n] s₂).pos ∧
      project_point (((update_ball cfg)^[n] s₁).pos) cfg.projection_distance =
        project_point (((update_ball cfg)^[n] s₂).pos) cfg.projection_distance := by
  obtain ⟨p₁, v₁⟩ := s₁
  obtain ⟨p₂, v₂⟩ := s₂
  cases hpos
  cases hvel
  exact ⟨rfl, rfl⟩

/-- Witness for C8: two syntactically identical runs of two ticks. -/
theorem determinism_runs_witness :
    ((update_ball defaultCfg)^[2] ⟨ball_pos₀, ![1, 2, 3, 4]⟩).pos =
        ((update_ball defaultCfg)^[2] ⟨ball_pos₀, ![1, 2, 3, 4]⟩).pos ∧
      project_point (((update_ball defaultCfg)^[2] ⟨ball_pos₀, ![1, 2, 3, 4]⟩).pos)
          defaultCfg.projection_distance =
        project_point (((update_ball defaultCfg)^[2] ⟨ball_pos₀, ![1, 2, 3, 4]⟩).pos)
          defaultCfg.projection_distance :=
  determinism_runs defaultCfg ⟨ball_pos₀, ![1, 2, 3, 4]⟩ ⟨ball_pos₀, ![1, 2, 3, 4]⟩ rfl rfl 2

/-- C9: Implicit per-axis speed conservation.  For every configuration,
every state and every axis, one call of `update_ball` leaves the absolute
value of the velocity coordinate unchanged (kept or exactly negated, never
rescaled), and hence it is invariant after any number of calls. -/
theorem speed_conserved (cfg : Config) (s : BallState) (i : Fin 4) (n : ℕ) :
    |(update_ball cfg s).vel i| = |s.vel i| ∧
      |((update_ball cfg)^[n] s).vel i| = |s.vel i| := by
  refine ⟨abs_vel_step cfg s i, ?_⟩
  induction n generalizing s with
  | zero => rfl
  | succ m ih =>
    rw [Function.iterate_succ_apply]
    rw [ih (update_ball cfg s), abs_vel_step cfg s i]

/-- C10: Implicit one-step re-containment.  With the default configuration,
a single call of `update_ball` puts every position coordinate inside
`[bounds.low + radius, bounds.high - radius]`, whatever the pre-call
position and velocity were. -/
theorem one_step_recontainment (s : BallState) (i : Fin 4) :
    defaultCfg.low + defaultCfg.radius ≤ (update_ball defaultCfg s).pos i ∧
      (update_ball defaultCfg s).pos i ≤ defaultCfg.high - defaultCfg.radius :=
  step_contained s i
